import Mathlib

/-
Formal model of the esb_integration repository (Home Assistant custom
integration scraping ESB Networks smart-meter data).

Source files modelled:
  - src/sensor.py   : `_async_import_statistics` (hourly bucketing, cumulative
                      sum continuation, skip of already-imported hours);
  - src/esb_api.py  : `ESBSmartMeter.get_usage_data` (the 8-request exchange,
                      token propagation, CSV post-processing);
  - src/config_flow.py : `ESBConfigFlow.async_step_user`.

Modelling conventions:
  - Numeric usage values (Python floats) are modelled as rationals.
  - Naive datetimes are modelled by the `NaiveDT` record; `pytz`
    `TIMEZONE.localize` is modelled as the identity on naive datetimes, and
    aware-datetime comparison as the (lexicographic) comparison of the
    underlying naive values.  The UTC timestamp of the last stored statistic
    is modelled as the local `NaiveDT` it converts to.
  - External collaborators (the HTTP server, BeautifulSoup, `json.loads`,
    `csv.DictReader`, the recorder) are modelled by an environment record
    supplying their outputs; everything the repository itself computes is
    translated directly.
  - The value of `DOMAIN` lives in `const.py`, which is not part of the
    sources; all definitions are therefore parametrised by `domain`.
-/

set_option maxRecDepth 8000

/-! ## Naive datetimes and the ESB date format -/

/-- A naive datetime as produced by `datetime.strptime` with format
`"%d-%m-%Y %H:%M"` (seconds and microseconds are always zero there, so they
are omitted). -/
structure NaiveDT where
  year : Nat
  month : Nat
  day : Nat
  hour : Nat
  minute : Nat
deriving DecidableEq, Repr

/-- Python `datetime` comparison: lexicographic on the fields. -/
def NaiveDT.le (a b : NaiveDT) : Prop :=
  a.year < b.year ∨ (a.year = b.year ∧ (a.month < b.month ∨ (a.month = b.month ∧
    (a.day < b.day ∨ (a.day = b.day ∧ (a.hour < b.hour ∨ (a.hour = b.hour ∧
      a.minute ≤ b.minute)))))))

/-- Strict version of `NaiveDT.le`. -/
def NaiveDT.lt (a b : NaiveDT) : Prop :=
  NaiveDT.le a b ∧ a ≠ b

instance : DecidableRel NaiveDT.le := fun a b => by
  unfold NaiveDT.le; infer_instance

instance : DecidableRel NaiveDT.lt := fun a b => by
  unfold NaiveDT.lt; infer_instance

instance : IsTotal NaiveDT NaiveDT.le :=
  ⟨fun a b => by unfold NaiveDT.le; omega⟩

instance : IsTrans NaiveDT NaiveDT.le :=
  ⟨fun a b c => by unfold NaiveDT.le; omega⟩

/-- Numeric value of a digit run, as read left to right. -/
def digitsVal (cs : List Char) : Nat :=
  cs.foldl (fun n c => 10 * n + (c.toNat - '0'.toNat)) 0

/-- `calendar` leap-year rule used by `datetime`. -/
def isLeapYear (y : Nat) : Bool :=
  (y % 4 == 0 && y % 100 != 0) || y % 400 == 0

/-- Number of days in a month, as validated by the `datetime` constructor. -/
def daysInMonth (y m : Nat) : Nat :=
  if m = 2 then (if isLeapYear y then 29 else 28)
  else if m = 4 ∨ m = 6 ∨ m = 9 ∨ m = 11 then 30
  else 31

/-- Model of `datetime.strptime(s, "%d-%m-%Y %H:%M")` (src/sensor.py line
150), returning `none` where CPython raises `ValueError`.  CPython compiles
the format to a regex: `%d` matches `3[01]|[12]\d|0[1-9]|[1-9]`, `%m` matches
`1[0-2]|0[1-9]|[1-9]`, `%Y` matches four digits, `%H` matches
`2[0-3]|[0-1]\d|\d`, `%M` matches `[0-5]\d|\d`, a literal space matches one or
more whitespace characters, and the whole string must be consumed.  Because
every separator is a non-digit, each field consumes a maximal digit run of
bounded length; the resulting values are then validated by the `datetime`
constructor (year at least `MINYEAR = 1`, day at most the month length). -/
def strptime_dmY_HM (s : String) : Option NaiveDT :=
  let cs := s.toList
  let day_cs := cs.takeWhile Char.isDigit
  match cs.dropWhile Char.isDigit with
  | '-' :: rest2 =>
    let mon_cs := rest2.takeWhile Char.isDigit
    match rest2.dropWhile Char.isDigit with
    | '-' :: rest4 =>
      let year_cs := rest4.takeWhile Char.isDigit
      match rest4.dropWhile Char.isDigit with
      | c :: rest5 =>
        if c.isWhitespace then
          let rest6 := rest5.dropWhile Char.isWhitespace
          let hour_cs := rest6.takeWhile Char.isDigit
          match rest6.dropWhile Char.isDigit with
          | ':' :: rest8 =>
            let min_cs := rest8.takeWhile Char.isDigit
            if rest8.dropWhile Char.isDigit = [] then
              let d := digitsVal day_cs
              let m := digitsVal mon_cs
              let y := digitsVal year_cs
              let hh := digitsVal hour_cs
              let mm := digitsVal min_cs
              if 1 ≤ day_cs.length ∧ day_cs.length ≤ 2 ∧ 1 ≤ d ∧ d ≤ 31
                  ∧ 1 ≤ mon_cs.length ∧ mon_cs.length ≤ 2 ∧ 1 ≤ m ∧ m ≤ 12
                  ∧ year_cs.length = 4 ∧ 1 ≤ y
                  ∧ 1 ≤ hour_cs.length ∧ hour_cs.length ≤ 2 ∧ hh ≤ 23
                  ∧ 1 ≤ min_cs.length ∧ min_cs.length ≤ 2 ∧ mm ≤ 59
                  ∧ d ≤ daysInMonth y m then
                some { year := y, month := m, day := d, hour := hh, minute := mm }
              else none
            else none
          | _ => none
        else none
      | _ => none
    | _ => none
  | _ => none

/-- `naive_dt.replace(minute=0, second=0, microsecond=0)` (src/sensor.py
line 152): round down to the top of the hour. -/
def truncHour (t : NaiveDT) : NaiveDT :=
  { t with minute := 0 }

/-! ## Readings and hourly bucketing (src/sensor.py lines 136-170) -/

/-- One element of the `readings` list produced by `get_usage_data`
(src/esb_api.py lines 221-225): keys `date`, `usage` and `type` (the last
is named `rtype` here). -/
structure Reading where
  date : String
  usage : ℚ
  rtype : String
deriving DecidableEq, Repr

/-- The hour a reading is assigned to, or `none` when it is skipped:
the code skips a reading whose `date` is empty (line 144) or fails to parse
(line 154), and otherwise localizes the truncated hour (modelled as the
identity, see the header). -/
def assignHour (r : Reading) : Option NaiveDT :=
  if r.date = "" then none
  else (strptime_dmY_HM r.date).map truncHour

/-- `hourly_readings[reading_time] += usage` with insertion on a missing key
(src/sensor.py lines 163-166); the Python dict is modelled as an association
list in insertion order. -/
def addToBucket : List (NaiveDT × ℚ) → NaiveDT → ℚ → List (NaiveDT × ℚ)
  | [], t, u => [(t, u)]
  | (t0, u0) :: rest, t, u =>
    if t0 = t then (t0, u0 + u) :: rest
    else (t0, u0) :: addToBucket rest t u

/-- One iteration of the reading loop (src/sensor.py lines 141-170). -/
def bucketStep (b : List (NaiveDT × ℚ)) (r : Reading) : List (NaiveDT × ℚ) :=
  match assignHour r with
  | some t => addToBucket b t r.usage
  | none => b

/-- The reading loop, starting from accumulated buckets `b`. -/
def buildHourlyFrom (b : List (NaiveDT × ℚ)) : List Reading → List (NaiveDT × ℚ)
  | [] => b
  | r :: rest => buildHourlyFrom (bucketStep b r) rest

/-- The complete `hourly_readings` dict built from the fetched readings. -/
def buildHourly (readings : List Reading) : List (NaiveDT × ℚ) :=
  buildHourlyFrom [] readings

/-- Dict lookup `hourly_readings[reading_time]` (0 on a missing key; in the
code the key is always present). -/
def lookupBucket : List (NaiveDT × ℚ) → NaiveDT → ℚ
  | [], _ => 0
  | (t0, u0) :: rest, t => if t0 = t then u0 else lookupBucket rest t

/-! ## The emission loop (src/sensor.py lines 172-191) -/

/-- One emitted external statistic (src/sensor.py lines 187-191). -/
structure StatRow where
  start : NaiveDT
  sum : ℚ
  state : ℚ
deriving DecidableEq, Repr

/-- The guard `last_time and reading_time <= last_time` (src/sensor.py
line 179): `None` is falsy, so nothing is skipped when `last_time` is
`None`. -/
def skipBefore (lastTime : Option NaiveDT) (t : NaiveDT) : Bool :=
  match lastTime with
  | some lt0 => decide (NaiveDT.le t lt0)
  | none => false

/-- The loop over `sorted(hourly_readings.keys())` (src/sensor.py lines
177-191), returning the emitted statistics, the final cumulative sum and the
`skipped` counter. -/
def emitLoop (buckets : List (NaiveDT × ℚ)) (lastTime : Option NaiveDT) :
    ℚ → List NaiveDT → List StatRow × ℚ × Nat
  | acc, [] => ([], acc, 0)
  | acc, t :: rest =>
    if skipBefore lastTime t then
      let prev := emitLoop buckets lastTime acc rest
      (prev.1, prev.2.1, prev.2.2 + 1)
    else
      let u := lookupBucket buckets t
      let prev := emitLoop buckets lastTime (acc + u) rest
      ({ start := t, sum := acc + u, state := u } :: prev.1, prev.2.1, prev.2.2)

/-! ## The statistics importer (src/sensor.py lines 94-205) -/

/-- The last previously stored statistic for the meter, as returned by
`get_last_statistics`: its `start` (converted to the local timezone,
src/sensor.py lines 123-124) and its `sum`. -/
structure LastStat where
  start : NaiveDT
  sum : ℚ
deriving DecidableEq, Repr

/-- `last_time` after lines 118-131: `None` when no previous statistic
exists, and also when the previous statistic has `sum == 0` ("treating as no
previous data"). -/
def lastTimeOf : Option LastStat → Option NaiveDT
  | some st => if st.sum = 0 then none else some st.start
  | none => none

/-- `last_sum` after lines 119-125: the stored `sum`, or 0 when no previous
statistic exists. -/
def lastSumOf : Option LastStat → ℚ
  | some st => st.sum
  | none => 0

/-- `statistic_id = f"{DOMAIN}:esb_{self.mprn}_consumption"` (src/sensor.py
line 97). -/
def statId (domain mprn : String) : String :=
  domain ++ ":esb_" ++ mprn ++ "_consumption"

/-- Result of one importer run: the id the statistics are written under, the
metadata name, the emitted statistics, and the `skipped` / `parse_errors`
counters. -/
structure ImportResult where
  statistic_id : String
  name : String
  statistics : List StatRow
  skipped : Nat
  parse_errors : Nat
deriving DecidableEq, Repr

/-- Model of `_async_import_statistics` (src/sensor.py lines 94-205).
`getLast` models `get_last_statistics` keyed by statistic id (`none` models
`statistic_id not in last_stats`). -/
def importStatistics (domain mprn : String) (getLast : String → Option LastStat)
    (readings : List Reading) : ImportResult :=
  let statistic_id := statId domain mprn
  let lastTime := lastTimeOf (getLast statistic_id)
  let lastSum := lastSumOf (getLast statistic_id)
  let buckets := buildHourly readings
  let sortedKeys := List.insertionSort NaiveDT.le (buckets.map Prod.fst)
  let emitted := emitLoop buckets lastTime lastSum sortedKeys
  { statistic_id := statistic_id
    name := "ESB Energy " ++ mprn
    statistics := emitted.1
    skipped := emitted.2.2
    parse_errors := readings.countP (fun r => decide (assignHour r = none)) }

/-! ## The scraper client (src/esb_api.py) -/

/-- A CSV row as produced by `csv.DictReader` over the downloaded file
(src/esb_api.py lines 206-209 and 215-228), restricted to the three columns
the code reads.  `readValue` is the result of `float(...)` on the
`Read Value` field, `none` where `float` raises (such a row is skipped by the
`except` clause); usage values are modelled as rationals. -/
structure CsvRow where
  readDate : String
  readValue : Option ℚ
  readType : String
deriving DecidableEq, Repr

/-- The dict returned by `get_usage_data` (src/esb_api.py lines 232-236). -/
structure UsageResult where
  total_usage : ℚ
  readings : List Reading
  last_updated : String
deriving DecidableEq, Repr

/-- `SETTINGS` JSON extracted from the first response (src/esb_api.py lines
53-57). -/
structure Settings where
  csrf : String
  transId : String
deriving DecidableEq, Repr

/-- The hidden form with id `auto` in the confirm response (src/esb_api.py
lines 113-118). -/
structure AuthForm where
  action : String
  state : String
  client_info : String
  code : String
deriving DecidableEq, Repr

/-- One HTTP request issued by the session, recording the fields the code
passes to `requests`.  `data` is the form body, `jsonData` the JSON body,
`params` the explicit query parameters; cookie values are optional because
they come from `dict.get` on the cookie jar. -/
structure HttpReq where
  method : String
  url : String
  params : List (String × String) := []
  data : List (String × String) := []
  jsonData : List (String × String) := []
  headers : List (String × String) := []
  cookies : List (String × Option String) := []
  allowRedirects : Bool := true
deriving DecidableEq, Repr

/-- `session.cookies.get_dict().get(k)`. -/
def jarGet (jar : List (String × String)) (k : String) : Option String :=
  (jar.find? (fun p => decide (p.1 = k))).map Prod.snd

/-- The environment: everything supplied by the outside world during one call
of `get_usage_data` (server responses, cookie jars after each request, the
debug cache).  Extractions performed on responses by external libraries
(regex + `json.loads`, BeautifulSoup, `csv.DictReader`) are modelled
abstractly: `none` models an extraction that raises. -/
structure Env where
  debugUseCache : Bool
  cacheLoad : Option UsageResult
  settings : Option Settings
  cookies1 : List (String × String)
  cookies2 : List (String × String)
  r3_text : String
  authForm : Option AuthForm
  cookies4 : List (String × String)
  cookies5 : List (String × String)
  token : Option String
  csv_file : String
  csv_rows : List CsvRow
  nowIso : String

/-- `self.user_agent` (src/esb_api.py line 27). -/
def userAgent : String :=
  "Mozilla/5.0 (X11; Ubuntu; Linux x86_64; rv:142.0) Gecko/20100101 Firefox/142.0"

/-- One iteration of the row-processing loop (src/esb_api.py lines 215-228):
accumulate `total_usage` and append to `readings`; a row whose `Read Value`
does not parse is skipped. -/
def rowStep (acc : ℚ × List Reading) (row : CsvRow) : ℚ × List Reading :=
  match row.readValue with
  | some v => (acc.1 + v, acc.2 ++ [{ date := row.readDate, usage := v, rtype := row.readType }])
  | none => acc

/-- The reading built from one parseable CSV row (src/esb_api.py lines
221-225). -/
def rowToReading (row : CsvRow) : Option Reading :=
  row.readValue.map (fun v => { date := row.readDate, usage := v, rtype := row.readType })

/-- REQUEST 1 (src/esb_api.py lines 48-51): initial page load. -/
def req1_initial : HttpReq :=
  { method := "GET", url := "https://myaccount.esbnetworks.ie/" }

/-- REQUEST 2 (src/esb_api.py lines 62-84): the login POST, carrying the
CSRF token as the `x-csrf-token` header, the transaction id as the `tx`
query parameter in the URL, and the `x-ms-cpim-csrf` / `x-ms-cpim-trans`
cookies captured after request 1. -/
def req2_login (st : Settings) (email password : String)
    (jar1 : List (String × String)) : HttpReq :=
  { method := "POST"
    url := "https://login.esbnetworks.ie/esbntwkscustportalprdb2c01.onmicrosoft.com/B2C_1A_signup_signin/SelfAsserted?tx="
      ++ st.transId ++ "&p=B2C_1A_signup_signin"
    data := [("signInName", email), ("password", password), ("request_type", "RESPONSE")]
    headers := [("x-csrf-token", st.csrf), ("User-Agent", userAgent),
      ("Accept", "application/json, text/javascript, */*; q=0.01"),
      ("Content-Type", "application/x-www-form-urlencoded; charset=UTF-8"),
      ("X-Requested-With", "XMLHttpRequest"),
      ("Origin", "https://login.esbnetworks.ie")]
    cookies := [("x-ms-cpim-csrf", jarGet jar1 "x-ms-cpim-csrf"),
      ("x-ms-cpim-trans", jarGet jar1 "x-ms-cpim-trans")]
    allowRedirects := false }

/-- REQUEST 3 (src/esb_api.py lines 88-102): confirm login, reusing the same
CSRF token and transaction id as query parameters and the cookies captured
after request 2. -/
def req3_confirm (st : Settings) (jar2 : List (String × String)) : HttpReq :=
  { method := "GET"
    url := "https://login.esbnetworks.ie/esbntwkscustportalprdb2c01.onmicrosoft.com/B2C_1A_signup_signin/api/CombinedSigninAndSignup/confirmed"
    params := [("rememberMe", "False"), ("csrf_token", st.csrf),
      ("tx", st.transId), ("p", "B2C_1A_signup_signin")]
    headers := [("User-Agent", userAgent)]
    cookies := [("x-ms-cpim-csrf", jarGet jar2 "x-ms-cpim-csrf"),
      ("x-ms-cpim-trans", jarGet jar2 "x-ms-cpim-trans")] }

/-- REQUEST 4 (src/esb_api.py lines 122-133): complete authentication by
posting the hidden form fields to the form action URL. -/
def req4_complete (fm : AuthForm) : HttpReq :=
  { method := "POST", url := fm.action, allowRedirects := false
    data := [("state", fm.state), ("client_info", fm.client_info), ("code", fm.code)]
    headers := [("User-Agent", userAgent),
      ("Content-Type", "application/x-www-form-urlencoded"),
      ("Origin", "https://login.esbnetworks.ie"),
      ("Referer", "https://login.esbnetworks.ie/")] }

/-- REQUEST 5 (src/esb_api.py lines 137-145): access the main portal with the
ARRAffinity cookies captured after request 4. -/
def req5_portal (jar4 : List (String × String)) : HttpReq :=
  { method := "GET", url := "https://myaccount.esbnetworks.ie"
    headers := [("User-Agent", userAgent)]
    cookies := [("ARRAffinity", jarGet jar4 "ARRAffinity"),
      ("ARRAffinitySameSite", jarGet jar4 "ARRAffinitySameSite")] }

/-- REQUEST 6 (src/esb_api.py lines 152-161): access the consumption page. -/
def req6_consumption (jar4 : List (String × String))
    (aspNetCoreCookie : Option String) : HttpReq :=
  { method := "GET", url := "https://myaccount.esbnetworks.ie/Api/HistoricConsumption"
    headers := [("User-Agent", userAgent)]
    cookies := [("ARRAffinity", jarGet jar4 "ARRAffinity"),
      ("ARRAffinitySameSite", jarGet jar4 "ARRAffinitySameSite"),
      (".AspNetCore.Cookies", aspNetCoreCookie)] }

/-- REQUEST 7 (src/esb_api.py lines 165-177): get the download token. -/
def req7_token (jar4 : List (String × String)) : HttpReq :=
  { method := "GET", url := "https://myaccount.esbnetworks.ie/af/t"
    headers := [("User-Agent", userAgent),
      ("X-Returnurl", "https://myaccount.esbnetworks.ie/Api/HistoricConsumption")]
    cookies := [("ARRAffinity", jarGet jar4 "ARRAffinity"),
      ("ARRAffinitySameSite", jarGet jar4 "ARRAffinitySameSite")] }

/-- REQUEST 8 (src/esb_api.py lines 181-194): download the data file, with
the download token as the `X-Xsrf-Token` header and the MPRN in the JSON
body. -/
def req8_download (tok mprn : String) : HttpReq :=
  { method := "POST", url := "https://myaccount.esbnetworks.ie/DataHub/DownloadHdfPeriodic"
    headers := [("User-Agent", userAgent), ("Content-Type", "application/json"),
      ("X-Xsrf-Token", tok)]
    jsonData := [("mprn", mprn), ("searchType", "intervalkwh")] }

/-- The fresh-fetch path of `get_usage_data` (src/esb_api.py lines 43-247):
the 8 chained requests with token extraction between them, then the CSV
post-processing.  Returns the list of requests issued together with the
result (`Except.error` models a raised exception). -/
def fetchFresh (mprn email password : String) (env : Env) :
    List HttpReq × Except String UsageResult :=
  match env.settings with
  | none => ([req1_initial], .error "settings extraction failed")
  | some st =>
    let req2 := req2_login st email password env.cookies1
    let req3 := req3_confirm st env.cookies2
    if env.r3_text.take 21 ≠ "<!DOCTYPE html PUBLIC" then
      ([req1_initial, req2, req3],
       .error "Login failed - too many retries or session error")
    else
      match env.authForm with
      | none => ([req1_initial, req2, req3], .error "auth form extraction failed")
      | some fm =>
        let aspNetCoreCookie := jarGet env.cookies5 ".AspNetCore.Cookies"
        match env.token with
        | none =>
          ([req1_initial, req2, req3, req4_complete fm, req5_portal env.cookies4,
            req6_consumption env.cookies4 aspNetCoreCookie, req7_token env.cookies4],
           .error "token extraction failed")
        | some tok =>
          let trace := [req1_initial, req2, req3, req4_complete fm,
            req5_portal env.cookies4, req6_consumption env.cookies4 aspNetCoreCookie,
            req7_token env.cookies4, req8_download tok mprn]
          if env.csv_file.take 4 ≠ "MPRN" then
            (trace, .error "Invalid CSV format received")
          else
            let acc := env.csv_rows.foldl rowStep (0, [])
            (trace, .ok { total_usage := acc.1, readings := acc.2, last_updated := env.nowIso })

/-- `get_usage_data` (src/esb_api.py lines 29-255): when the debug cache is
enabled and loads, return it without issuing any request; otherwise fetch
fresh data. -/
def get_usage_data (mprn email password : String) (env : Env) :
    List HttpReq × Except String UsageResult :=
  if env.debugUseCache then
    match env.cacheLoad with
    | some cached => ([], .ok cached)
    | none => fetchFresh mprn email password env
  else fetchFresh mprn email password env

/-! ## The config flow (src/config_flow.py) -/

/-- The three required string fields of the user step schema
(src/config_flow.py lines 31-37). -/
structure UserInput where
  mprn : String
  email : String
  password : String
deriving DecidableEq, Repr

/-- The possible outcomes of `async_step_user`. -/
inductive FlowResult
  | showForm (requiredFields : List String)
  | abortAlreadyConfigured
  | createEntry (title : String) (data : UserInput)
deriving DecidableEq, Repr

/-- Result of the step together with the unique id set on the flow. -/
structure FlowOutcome where
  uniqueId : Option String
  result : FlowResult
deriving DecidableEq, Repr

/-- Model of `ESBConfigFlow.async_step_user` (src/config_flow.py lines
14-43).  `configuredIds` is the set of unique ids of already configured
entries; `_abort_if_unique_id_configured` aborts when the id just set is
among them. -/
def async_step_user (configuredIds : List String) (userInput : Option UserInput) :
    FlowOutcome :=
  match userInput with
  | some u =>
    if u.mprn ∈ configuredIds then
      { uniqueId := some u.mprn, result := .abortAlreadyConfigured }
    else
      { uniqueId := some u.mprn, result := .createEntry ("ESB " ++ u.mprn) u }
  | none =>
    { uniqueId := none, result := .showForm ["mprn", "email", "password"] }

/-! ## Concrete environments used by witnesses -/

/-- A concrete environment on which every step of the exchange succeeds. -/
def envOK : Env :=
  { debugUseCache := false
    cacheLoad := none
    settings := some { csrf := "CSRF0", transId := "TX0" }
    cookies1 := [("x-ms-cpim-csrf", "c1"), ("x-ms-cpim-trans", "t1")]
    cookies2 := [("x-ms-cpim-csrf", "c2"), ("x-ms-cpim-trans", "t2")]
    r3_text := "<!DOCTYPE html PUBLIC some login confirmation page"
    authForm := some { action := "https://login.esbnetworks.ie/auto", state := "S", client_info := "CI", code := "CD" }
    cookies4 := [("ARRAffinity", "a1"), ("ARRAffinitySameSite", "a2")]
    cookies5 := [(".AspNetCore.Cookies", "anc")]
    token := some "TOK"
    csv_file := "MPRN,Meter Serial Number,Read Value,Read Type,Read Date and End Time"
    csv_rows := [{ readDate := "01-01-2024 10:30", readValue := some 1, readType := "Actual" },
      { readDate := "02-01-2024 10:30", readValue := none, readType := "Actual" }]
    nowIso := "2026-10-12T00:00:00" }

/-- `envOK`, but the downloaded file is not a CSV starting with `MPRN`. -/
def envBadCsv : Env :=
  { envOK with csv_file := "<html>maintenance page</html>" }

/-! ## Helper lemmas -/

lemma strptime_empty : strptime_dmY_HM "" = none := rfl

lemma assignHour_eq (r : Reading) :
    assignHour r = (strptime_dmY_HM r.date).map truncHour := by
  unfold assignHour
  by_cases h : r.date = ""
  · rw [if_pos h, h]; rfl
  · rw [if_neg h]

lemma lookupBucket_addToBucket (b : List (NaiveDT × ℚ)) (t : NaiveDT) (u : ℚ)
    (s : NaiveDT) :
    lookupBucket (addToBucket b t u) s
      = if t = s then lookupBucket b s + u else lookupBucket b s := by
  induction b with
  | nil =>
    simp only [addToBucket, lookupBucket]
    by_cases h : t = s
    · simp [h]
    · simp [h]
  | cons p rest ih =>
    obtain ⟨t0, u0⟩ := p
    simp only [addToBucket]
    by_cases h0 : t0 = t
    · subst h0
      simp only [if_pos rfl, lookupBucket]
      by_cases hs : t0 = s
      · simp [hs]
      · simp [hs]
    · rw [if_neg h0]
      simp only [lookupBucket]
      by_cases hs : t0 = s
      · have hts : t ≠ s := fun h => h0 (hs.trans h.symm)
        simp [hs, hts]
      · simp [hs, ih]

lemma keys_addToBucket (b : List (NaiveDT × ℚ)) (t : NaiveDT) (u : ℚ) (s : NaiveDT) :
    s ∈ (addToBucket b t u).map Prod.fst ↔ s = t ∨ s ∈ b.map Prod.fst := by
  induction b with
  | nil => simp [addToBucket]
  | cons p rest ih =>
    obtain ⟨t0, u0⟩ := p
    simp only [addToBucket]
    by_cases h0 : t0 = t
    · subst h0
      rw [if_pos rfl]
      simp only [List.map_cons, List.mem_cons]
      tauto
    · rw [if_neg h0]
      simp only [List.map_cons, List.mem_cons] at ih ⊢
      rw [ih]
      tauto

lemma nodup_keys_addToBucket (b : List (NaiveDT × ℚ)) (t : NaiveDT) (u : ℚ)
    (h : (b.map Prod.fst).Nodup) : ((addToBucket b t u).map Prod.fst).Nodup := by
  induction b with
  | nil => simp [addToBucket]
  | cons p rest ih =>
    obtain ⟨t0, u0⟩ := p
    simp only [List.map_cons, List.nodup_cons] at h
    obtain ⟨hnotin, hrest⟩ := h
    simp only [addToBucket]
    by_cases h0 : t0 = t
    · subst h0
      rw [if_pos rfl]
      simp only [List.map_cons, List.nodup_cons]
      exact ⟨hnotin, hrest⟩
    · rw [if_neg h0]
      simp only [List.map_cons, List.nodup_cons]
      refine ⟨?_, ih hrest⟩
      rw [keys_addToBucket]
      rintro (h1 | h2)
      · exact h0 h1
      · exact hnotin h2

lemma lookupBucket_buildHourlyFrom (rs : List Reading) :
    ∀ (b : List (NaiveDT × ℚ)) (t : NaiveDT),
      lookupBucket (buildHourlyFrom b rs) t
        = lookupBucket b t
          + ((rs.filter (fun r => decide (assignHour r = some t))).map Reading.usage).sum := by
  induction rs with
  | nil => intro b t; simp [buildHourlyFrom]
  | cons r rest ih =>
    intro b t
    simp only [buildHourlyFrom, bucketStep]
    cases h : assignHour r with
    | none =>
      rw [ih]
      have hd : (decide (assignHour r = some t)) = false := by simp [h]
      simp [List.filter_cons, hd]
    | some t0 =>
      rw [ih, lookupBucket_addToBucket]
      by_cases ht : t0 = t
      · subst ht
        have hd : (decide (assignHour r = some t0)) = true := by simp [h]
        simp only [if_pos rfl, List.filter_cons, hd, if_true, List.map_cons, List.sum_cons]
        ring
      · have hd : (decide (assignHour r = some t)) = false := by simp [h, ht]
        simp [List.filter_cons, hd, ht]

lemma keys_buildHourlyFrom (rs : List Reading) :
    ∀ (b : List (NaiveDT × ℚ)) (t : NaiveDT),
      t ∈ (buildHourlyFrom b rs).map Prod.fst
        ↔ t ∈ b.map Prod.fst ∨ ∃ r ∈ rs, assignHour r = some t := by
  induction rs with
  | nil => intro b t; simp [buildHourlyFrom]
  | cons r rest ih =>
    intro b t
    simp only [buildHourlyFrom, bucketStep]
    cases h : assignHour r with
    | none =>
      rw [ih]
      simp only [List.mem_cons]
      constructor
      · rintro (h1 | ⟨r1, hr1, ha⟩)
        · exact Or.inl h1
        · exact Or.inr ⟨r1, Or.inr hr1, ha⟩
      · rintro (h1 | ⟨r1, (rfl | hr1), ha⟩)
        · exact Or.inl h1
        · rw [h] at ha; cases ha
        · exact Or.inr ⟨r1, hr1, ha⟩
    | some t0 =>
      rw [ih, keys_addToBucket]
      simp only [List.mem_cons]
      constructor
      · rintro ((h1 | h2) | ⟨r1, hr1, ha⟩)
        · exact Or.inr ⟨r, Or.inl rfl, by rw [h, h1]⟩
        · exact Or.inl h2
        · exact Or.inr ⟨r1, Or.inr hr1, ha⟩
      · rintro (h1 | ⟨r1, (rfl | hr1), ha⟩)
        · exact Or.inl (Or.inr h1)
        · rw [h] at ha
          simp only [Option.some.injEq] at ha
          exact Or.inl (Or.inl ha.symm)
        · exact Or.inr ⟨r1, hr1, ha⟩

lemma nodup_keys_buildHourlyFrom (rs : List Reading) :
    ∀ (b : List (NaiveDT × ℚ)), (b.map Prod.fst).Nodup →
      ((buildHourlyFrom b rs).map Prod.fst).Nodup := by
  induction rs with
  | nil => intro b h; simpa [buildHourlyFrom] using h
  | cons r rest ih =>
    intro b h
    simp only [buildHourlyFrom, bucketStep]
    cases ha : assignHour r with
    | none => exact ih b h
    | some t0 => exact ih _ (nodup_keys_addToBucket b t0 r.usage h)

lemma nodup_keys_buildHourly (rs : List Reading) :
    ((buildHourly rs).map Prod.fst).Nodup :=
  nodup_keys_buildHourlyFrom rs [] (by simp)

lemma emitLoop_cons_skip (buckets : List (NaiveDT × ℚ)) (lastTime : Option NaiveDT)
    (acc : ℚ) (t : NaiveDT) (rest : List NaiveDT) (h : skipBefore lastTime t = true) :
    emitLoop buckets lastTime acc (t :: rest)
      = ((emitLoop buckets lastTime acc rest).1,
         (emitLoop buckets lastTime acc rest).2.1,
         (emitLoop buckets lastTime acc rest).2.2 + 1) := by
  simp [emitLoop, h]

lemma emitLoop_cons_emit (buckets : List (NaiveDT × ℚ)) (lastTime : Option NaiveDT)
    (acc : ℚ) (t : NaiveDT) (rest : List NaiveDT) (h : skipBefore lastTime t = false) :
    emitLoop buckets lastTime acc (t :: rest)
      = ({ start := t, sum := acc + lookupBucket buckets t,
           state := lookupBucket buckets t }
           :: (emitLoop buckets lastTime (acc + lookupBucket buckets t) rest).1,
         (emitLoop buckets lastTime (acc + lookupBucket buckets t) rest).2.1,
         (emitLoop buckets lastTime (acc + lookupBucket buckets t) rest).2.2) := by
  simp [emitLoop, h]

lemma emitLoop_sum_state (buckets : List (NaiveDT × ℚ)) (lastTime : Option NaiveDT)
    (keys : List NaiveDT) :
    ∀ (acc : ℚ) (k : Nat) (row : StatRow),
      (emitLoop buckets lastTime acc keys).1.get? k = some row →
      row.sum = acc + (((emitLoop buckets lastTime acc keys).1.map StatRow.state).take (k + 1)).sum
        ∧ row.state = lookupBucket buckets row.start := by
  induction keys with
  | nil =>
    intro acc k row h
    simp [emitLoop] at h
  | cons t rest ih =>
    intro acc k row h
    by_cases hskip : skipBefore lastTime t = true
    · rw [emitLoop_cons_skip buckets lastTime acc t rest hskip] at h ⊢
      exact ih acc k row h
    · rw [Bool.not_eq_true] at hskip
      rw [emitLoop_cons_emit buckets lastTime acc t rest hskip] at h ⊢
      cases k with
      | zero =>
        rw [List.get?_cons_zero] at h
        obtain rfl : _ = row := Option.some.inj h
        refine ⟨?_, rfl⟩
        simp only [List.map_cons, List.take_succ_cons, List.take_zero,
          List.sum_cons, List.sum_nil]
        ring
      | succ k =>
        rw [List.get?_cons_succ] at h
        obtain ⟨h1, h2⟩ := ih (acc + lookupBucket buckets t) k row h
        refine ⟨?_, h2⟩
        rw [h1]
        simp only [List.map_cons, List.take_succ_cons, List.sum_cons]
        ring

lemma emitLoop_starts_sublist (buckets : List (NaiveDT × ℚ)) (lastTime : Option NaiveDT)
    (keys : List NaiveDT) :
    ∀ acc : ℚ, List.Sublist ((emitLoop buckets lastTime acc keys).1.map StatRow.start) keys := by
  induction keys with
  | nil => intro acc; simp [emitLoop]
  | cons t rest ih =>
    intro acc
    by_cases hskip : skipBefore lastTime t = true
    · rw [emitLoop_cons_skip buckets lastTime acc t rest hskip]
      exact (ih acc).trans (List.sublist_cons_self t rest)
    · rw [Bool.not_eq_true] at hskip
      rw [emitLoop_cons_emit buckets lastTime acc t rest hskip]
      simp only [List.map_cons]
      exact List.Sublist.cons₂ t (ih (acc + lookupBucket buckets t))

lemma emitLoop_not_skipped (buckets : List (NaiveDT × ℚ)) (lt0 : NaiveDT)
    (keys : List NaiveDT) :
    ∀ (acc : ℚ) (row : StatRow), row ∈ (emitLoop buckets (some lt0) acc keys).1 →
      ¬ NaiveDT.le row.start lt0 := by
  induction keys with
  | nil => intro acc row hmem; simp [emitLoop] at hmem
  | cons t rest ih =>
    intro acc row hmem
    by_cases hskip : skipBefore (some lt0) t = true
    · rw [emitLoop_cons_skip buckets (some lt0) acc t rest hskip] at hmem
      exact ih acc row hmem
    · rw [Bool.not_eq_true] at hskip
      rw [emitLoop_cons_emit buckets (some lt0) acc t rest hskip] at hmem
      rw [List.mem_cons] at hmem
      rcases hmem with rfl | hmem1
      · simp only [skipBefore, decide_eq_false_iff_not] at hskip
        exact hskip
      · exact ih (acc + lookupBucket buckets t) row hmem1

lemma emitLoop_none_starts (buckets : List (NaiveDT × ℚ)) (keys : List NaiveDT) :
    ∀ acc : ℚ, (emitLoop buckets none acc keys).1.map StatRow.start = keys := by
  induction keys with
  | nil => intro acc; simp [emitLoop]
  | cons t rest ih =>
    intro acc
    have hskip : skipBefore (none : Option NaiveDT) t = false := rfl
    rw [emitLoop_cons_emit buckets none acc t rest hskip]
    simp only [List.map_cons]
    rw [ih]

lemma foldl_rowStep (rows : List CsvRow) :
    ∀ (t0 : ℚ) (rs0 : List Reading),
      rows.foldl rowStep (t0, rs0)
        = (t0 + (rows.filterMap CsvRow.readValue).sum,
           rs0 ++ rows.filterMap rowToReading) := by
  induction rows with
  | nil => intro t0 rs0; simp
  | cons row rest ih =>
    intro t0 rs0
    simp only [List.foldl_cons]
    cases h : row.readValue with
    | none =>
      have h1 : rowStep (t0, rs0) row = (t0, rs0) := by simp [rowStep, h]
      rw [h1, ih]
      simp [List.filterMap_cons, rowToReading, h]
    | some v =>
      have h1 : rowStep (t0, rs0) row
          = (t0 + v, rs0 ++ [{ date := row.readDate, usage := v, rtype := row.readType }]) := by
        simp [rowStep, h]
      rw [h1, ih]
      simp [List.filterMap_cons, rowToReading, h, add_assoc]

lemma map_usage_filterMap (rows : List CsvRow) :
    (rows.filterMap rowToReading).map Reading.usage = rows.filterMap CsvRow.readValue := by
  induction rows with
  | nil => rfl
  | cons row rest ih =>
    cases h : row.readValue with
    | none => simp [List.filterMap_cons, rowToReading, h, ih]
    | some v => simp [List.filterMap_cons, rowToReading, h, ih]

lemma NaiveDT.le_refl (t : NaiveDT) : NaiveDT.le t t := by
  unfold NaiveDT.le; omega

lemma importStatistics_statistics_eq (domain mprn : String)
    (getLast : String → Option LastStat) (readings : List Reading) :
    (importStatistics domain mprn getLast readings).statistics
      = (emitLoop (buildHourly readings) (lastTimeOf (getLast (statId domain mprn)))
          (lastSumOf (getLast (statId domain mprn)))
          (List.insertionSort NaiveDT.le ((buildHourly readings).map Prod.fst))).1 := rfl

/-! ## Claim theorems: the statistics importer -/

/-- C1: in every importer run, letting `last_sum` be the stored sum of the
most recent previously stored statistic for the meter's statistic id (0 if
none), the emitted statistics are in strictly increasing start-time order,
the k-th emitted statistic's `sum` equals `last_sum` plus the sum of the
hourly usage values (the `state`s) of the first k emitted hour buckets, and
its `state` equals the bucketed usage of its hour. -/
theorem import_cumulative_sum_continuation (domain mprn : String)
    (getLast : String → Option LastStat) (readings : List Reading) :
    List.Pairwise NaiveDT.lt
      ((importStatistics domain mprn getLast readings).statistics.map StatRow.start)
    ∧ ∀ (k : Nat) (row : StatRow),
        (importStatistics domain mprn getLast readings).statistics.get? k = some row →
        row.sum = lastSumOf (getLast (statId domain mprn))
            + (((importStatistics domain mprn getLast readings).statistics.map
                StatRow.state).take (k + 1)).sum
          ∧ row.state = lookupBucket (buildHourly readings) row.start := by
  rw [importStatistics_statistics_eq]
  constructor
  · have hsorted : List.Pairwise NaiveDT.le
        (List.insertionSort NaiveDT.le ((buildHourly readings).map Prod.fst)) :=
      List.sorted_insertionSort NaiveDT.le ((buildHourly readings).map Prod.fst)
    have hnodup : (List.insertionSort NaiveDT.le ((buildHourly readings).map Prod.fst)).Nodup :=
      (List.perm_insertionSort NaiveDT.le ((buildHourly readings).map Prod.fst)).symm.nodup
        (nodup_keys_buildHourly readings)
    have hlt : List.Pairwise NaiveDT.lt
        (List.insertionSort NaiveDT.le ((buildHourly readings).map Prod.fst)) :=
      (hsorted.and hnodup).imp (fun hab => ⟨hab.1, hab.2⟩)
    exact hlt.sublist (emitLoop_starts_sublist _ _ _ _)
  · intro k row h
    exact emitLoop_sum_state _ _ _ _ k row h

/-- C1 witness: a concrete run with no previous statistic and one reading at
10:30; the emitted statistic at index 0 continues the sum from 0. -/
theorem import_cumulative_sum_continuation_witness :
    ((0 : ℚ) + 1 = lastSumOf ((fun _ => (none : Option LastStat)) (statId "esb" "m"))
        + (((importStatistics "esb" "m" (fun _ => none)
            [{ date := "01-01-2024 10:30", usage := 1, rtype := "A" }]).statistics.map
            StatRow.state).take 1).sum)
    ∧ (1 : ℚ) = lookupBucket
        (buildHourly [{ date := "01-01-2024 10:30", usage := 1, rtype := "A" }])
        { year := 2024, month := 1, day := 1, hour := 10, minute := 0 } :=
  (import_cumulative_sum_continuation "esb" "m" (fun _ => none)
      [{ date := "01-01-2024 10:30", usage := 1, rtype := "A" }]).2 0
    { start := { year := 2024, month := 1, day := 1, hour := 10, minute := 0 }, sum := 0 + 1, state := 1 }
    rfl

/-- C2 counterexample: with a previously stored last statistic at 05:00 whose
sum is 0, the hour bucket 04:00 (at or before 05:00) is emitted again to the
statistics store. -/
theorem import_reemits_hour_before_stored_start :
    ((fun _ => some { start := { year := 2024, month := 1, day := 1, hour := 5, minute := 0 }, sum := (0 : ℚ) }) : String → Option LastStat) (statId "esb" "m")
      = some { start := { year := 2024, month := 1, day := 1, hour := 5, minute := 0 }, sum := 0 }
    ∧ (importStatistics "esb" "m"
        (fun _ => some { start := { year := 2024, month := 1, day := 1, hour := 5, minute := 0 }, sum := 0 })
        [{ date := "01-01-2024 04:30", usage := 1, rtype := "A" }]).statistics.map StatRow.start
      = [{ year := 2024, month := 1, day := 1, hour := 4, minute := 0 }]
    ∧ NaiveDT.le { year := 2024, month := 1, day := 1, hour := 4, minute := 0 }
        { year := 2024, month := 1, day := 1, hour := 5, minute := 0 } :=
  ⟨rfl, by decide, by decide⟩

/-- C2 (amended): for every previously stored last statistic whose sum is
nonzero, no hour bucket whose start time is at or before that statistic's
start time is emitted again; every emitted hour is strictly later. -/
theorem import_no_reemission_nonzero_sum (domain mprn : String)
    (getLast : String → Option LastStat) (readings : List Reading) (st : LastStat)
    (hst : getLast (statId domain mprn) = some st) (hsum : st.sum ≠ 0) :
    ∀ row ∈ (importStatistics domain mprn getLast readings).statistics,
      ¬ NaiveDT.le row.start st.start ∧ NaiveDT.lt st.start row.start := by
  intro row hrow
  rw [importStatistics_statistics_eq, hst] at hrow
  have hlt : lastTimeOf (some st) = some st.start := by
    simp [lastTimeOf, hsum]
  rw [hlt] at hrow
  have hnotle : ¬ NaiveDT.le row.start st.start :=
    emitLoop_not_skipped _ st.start _ _ row hrow
  refine ⟨hnotle, ?_, ?_⟩
  · rcases IsTotal.total (r := NaiveDT.le) st.start row.start with h | h
    · exact h
    · exact absurd h hnotle
  · intro heq
    exact hnotle (by rw [heq]; exact NaiveDT.le_refl row.start)

/-- C2 witness: a concrete run with a stored statistic at 05:00 and sum 7;
the emitted hour 06:00 is strictly later than 05:00. -/
theorem import_no_reemission_nonzero_sum_witness :
    ¬ NaiveDT.le { year := 2024, month := 1, day := 1, hour := 6, minute := 0 }
        { year := 2024, month := 1, day := 1, hour := 5, minute := 0 }
    ∧ NaiveDT.lt { year := 2024, month := 1, day := 1, hour := 5, minute := 0 }
        { year := 2024, month := 1, day := 1, hour := 6, minute := 0 } :=
  import_no_reemission_nonzero_sum "esb" "m"
    (fun _ => some { start := { year := 2024, month := 1, day := 1, hour := 5, minute := 0 }, sum := 7 })
    [{ date := "01-01-2024 04:30", usage := 1, rtype := "A" },
     { date := "01-01-2024 06:30", usage := 2, rtype := "A" }]
    { start := { year := 2024, month := 1, day := 1, hour := 5, minute := 0 }, sum := 7 }
    rfl (by decide)
    { start := { year := 2024, month := 1, day := 1, hour := 6, minute := 0 }, sum := 7 + 2, state := 2 }
    (List.Mem.head [])

/-- C3: the importer buckets readings into hourly sums: a reading is assigned
to the hour obtained from its parsed date by truncating minutes (and seconds
and microseconds) to zero; each hourly bucket value is the sum of the usages
of the readings assigned to that hour, a bucket exists exactly when some
reading is assigned to it, and readings with an empty or unparseable date
affect no bucket. -/
theorem hourly_bucketing_spec (readings : List Reading) (t : NaiveDT) :
    lookupBucket (buildHourly readings) t
      = ((readings.filter
          (fun r => decide ((strptime_dmY_HM r.date).map truncHour = some t))).map
          Reading.usage).sum
    ∧ (t ∈ (buildHourly readings).map Prod.fst
        ↔ ∃ r ∈ readings, (strptime_dmY_HM r.date).map truncHour = some t) := by
  have hfun : (fun r => decide (assignHour r = some t))
      = (fun r => decide ((strptime_dmY_HM r.date).map truncHour = some t)) := by
    funext r
    rw [assignHour_eq]
  constructor
  · have h := lookupBucket_buildHourlyFrom readings [] t
    rw [hfun] at h
    simpa [buildHourly, lookupBucket] using h
  · have h := keys_buildHourlyFrom readings [] t
    simp only [List.map_nil, List.not_mem_nil, false_or] at h
    rw [show (buildHourly readings) = buildHourlyFrom [] readings from rfl, h]
    constructor
    · rintro ⟨r, hr, ha⟩
      rw [assignHour_eq] at ha
      exact ⟨r, hr, ha⟩
    · rintro ⟨r, hr, ha⟩
      rw [← assignHour_eq] at ha
      exact ⟨r, hr, ha⟩

/-- C9: when the last previously stored statistic exists with sum 0, the run
is identical to a run with no previous data: nothing is skipped (every hour
bucket of the fetched readings is emitted, in sorted order), and the
cumulative sum starts from 0. -/
theorem import_zero_sum_treated_as_fresh (domain mprn : String)
    (getLast : String → Option LastStat) (readings : List Reading) (st : LastStat)
    (hst : getLast (statId domain mprn) = some st) (hzero : st.sum = 0) :
    importStatistics domain mprn getLast readings
      = importStatistics domain mprn (fun _ => none) readings
    ∧ (importStatistics domain mprn getLast readings).statistics.map StatRow.start
      = List.insertionSort NaiveDT.le ((buildHourly readings).map Prod.fst)
    ∧ ∀ (k : Nat) (row : StatRow),
        (importStatistics domain mprn getLast readings).statistics.get? k = some row →
        row.sum = 0 + (((importStatistics domain mprn getLast readings).statistics.map
            StatRow.state).take (k + 1)).sum := by
  have h1 : importStatistics domain mprn getLast readings
      = importStatistics domain mprn (fun _ => none) readings := by
    simp [importStatistics, hst, lastTimeOf, lastSumOf, hzero]
  refine ⟨h1, ?_, ?_⟩
  · rw [h1, importStatistics_statistics_eq]
    exact emitLoop_none_starts _ _ _
  · intro k row h
    rw [h1, importStatistics_statistics_eq] at h ⊢
    exact (emitLoop_sum_state _ _ _ _ k row h).1

/-- C9 witness: with a stored statistic at 05:00 and sum 0, the 04:00 bucket
is emitted (identical to the fresh-import run). -/
theorem import_zero_sum_treated_as_fresh_witness :
    (importStatistics "esb" "m"
        (fun _ => some { start := { year := 2024, month := 1, day := 1, hour := 5, minute := 0 }, sum := 0 })
        [{ date := "01-01-2024 04:30", usage := 1, rtype := "A" }]).statistics.map StatRow.start
      = List.insertionSort NaiveDT.le
          ((buildHourly [{ date := "01-01-2024 04:30", usage := 1, rtype := "A" }]).map
            Prod.fst) :=
  (import_zero_sum_treated_as_fresh "esb" "m"
    (fun _ => some { start := { year := 2024, month := 1, day := 1, hour := 5, minute := 0 }, sum := 0 })
    [{ date := "01-01-2024 04:30", usage := 1, rtype := "A" }]
    { start := { year := 2024, month := 1, day := 1, hour := 5, minute := 0 }, sum := 0 }
    rfl rfl).2.1

/-! ## Claim theorems: config flow and statistic id -/

/-- C5: the config flow collects exactly three required string credentials
(mprn, email, password); on submitted input it sets the flow's unique id to
the submitted mprn, aborts instead of creating an entry when an entry with
that mprn is already configured, and otherwise creates an entry titled
`ESB <mprn>` containing the submitted data. -/
theorem config_flow_user_step_spec (configuredIds : List String) (u : UserInput) :
    (async_step_user configuredIds (some u)).uniqueId = some u.mprn
    ∧ (u.mprn ∈ configuredIds →
        (async_step_user configuredIds (some u)).result = FlowResult.abortAlreadyConfigured)
    ∧ (u.mprn ∉ configuredIds →
        (async_step_user configuredIds (some u)).result
          = FlowResult.createEntry ("ESB " ++ u.mprn) u)
    ∧ async_step_user configuredIds none
        = { uniqueId := none, result := FlowResult.showForm ["mprn", "email", "password"] } := by
  refine ⟨?_, ?_, ?_, rfl⟩
  · by_cases h : u.mprn ∈ configuredIds <;> simp [async_step_user, h]
  · intro h
    simp [async_step_user, h]
  · intro h
    simp [async_step_user, h]

/-- C5 witness: submitting an already configured mprn aborts; a new mprn
creates the titled entry. -/
theorem config_flow_user_step_spec_witness :
    (async_step_user ["100"] (some { mprn := "100", email := "e", password := "p" })).result
      = FlowResult.abortAlreadyConfigured
    ∧ (async_step_user ["100"] (some { mprn := "200", email := "e", password := "p" })).result
      = FlowResult.createEntry ("ESB " ++ "200") { mprn := "200", email := "e", password := "p" } :=
  ⟨(config_flow_user_step_spec ["100"] { mprn := "100", email := "e", password := "p" }).2.1
      (by decide),
   (config_flow_user_step_spec ["100"] { mprn := "200", email := "e", password := "p" }).2.2.1
      (by decide)⟩

/-- C6: statistics are keyed by a stable statistic id: every run writes under
`DOMAIN ++ ":esb_" ++ mprn ++ "_consumption"`, two runs with the same mprn
use the same id whatever data they see, and the run depends on the last-
statistics lookup only through its value at that same id (the id used for
the lookup is the id written). -/
theorem statistic_id_stable (domain mprn : String)
    (getLast getLast2 : String → Option LastStat) (readings readings2 : List Reading) :
    (importStatistics domain mprn getLast readings).statistic_id = statId domain mprn
    ∧ statId domain mprn = domain ++ ":esb_" ++ mprn ++ "_consumption"
    ∧ (importStatistics domain mprn getLast readings).statistic_id
        = (importStatistics domain mprn getLast2 readings2).statistic_id
    ∧ (getLast (statId domain mprn) = getLast2 (statId domain mprn) →
        importStatistics domain mprn getLast readings
          = importStatistics domain mprn getLast2 readings) := by
  refine ⟨rfl, rfl, rfl, ?_⟩
  intro h
  simp only [importStatistics, h]

/-- C6 witness: two different lookup functions that agree at the statistic id
give identical runs. -/
theorem statistic_id_stable_witness :
    importStatistics "esb" "m"
      (fun s => if s = statId "esb" "m" then some { start := { year := 2024, month := 1, day := 1, hour := 5, minute := 0 }, sum := 7 } else none)
      [{ date := "01-01-2024 06:30", usage := 2, rtype := "A" }]
    = importStatistics "esb" "m"
      (fun _ => some { start := { year := 2024, month := 1, day := 1, hour := 5, minute := 0 }, sum := 7 })
      [{ date := "01-01-2024 06:30", usage := 2, rtype := "A" }] :=
  (statistic_id_stable "esb" "m"
    (fun s => if s = statId "esb" "m" then some { start := { year := 2024, month := 1, day := 1, hour := 5, minute := 0 }, sum := 7 } else none)
    (fun _ => some { start := { year := 2024, month := 1, day := 1, hour := 5, minute := 0 }, sum := 7 })
    [{ date := "01-01-2024 06:30", usage := 2, rtype := "A" }]
    [{ date := "01-01-2024 06:30", usage := 2, rtype := "A" }]).2.2.2 (by decide)

/-! ## Claim theorems: the scraper client -/

lemma fetchFresh_success (mprn email password : String) (env : Env)
    (st : Settings) (fm : AuthForm) (tok : String)
    (hst : env.settings = some st) (hr3 : env.r3_text.take 21 = "<!DOCTYPE html PUBLIC")
    (hfm : env.authForm = some fm) (htok : env.token = some tok)
    (hcsv : env.csv_file.take 4 = "MPRN") :
    fetchFresh mprn email password env
      = ([req1_initial, req2_login st email password env.cookies1, req3_confirm st env.cookies2,
          req4_complete fm, req5_portal env.cookies4,
          req6_consumption env.cookies4 (jarGet env.cookies5 ".AspNetCore.Cookies"),
          req7_token env.cookies4, req8_download tok mprn],
         Except.ok { total_usage := (env.csv_rows.filterMap CsvRow.readValue).sum,
                     readings := env.csv_rows.filterMap rowToReading,
                     last_updated := env.nowIso }) := by
  unfold fetchFresh
  simp only [hst, hfm, htok]
  rw [if_neg (by rw [hr3]; simp)]
  rw [if_neg (by rw [hcsv]; simp)]
  rw [foldl_rowStep]
  simp

lemma fetchFresh_ok_result (mprn email password : String) (env : Env) (res : UsageResult)
    (hok : (fetchFresh mprn email password env).2 = Except.ok res) :
    res = { total_usage := (env.csv_rows.filterMap CsvRow.readValue).sum,
            readings := env.csv_rows.filterMap rowToReading,
            last_updated := env.nowIso } := by
  unfold fetchFresh at hok
  cases hst : env.settings with
  | none =>
    rw [hst] at hok
    simp at hok
  | some st =>
    rw [hst] at hok
    simp only [] at hok
    by_cases h3 : env.r3_text.take 21 ≠ "<!DOCTYPE html PUBLIC"
    · rw [if_pos h3] at hok
      simp at hok
    · rw [if_neg h3] at hok
      cases hfm : env.authForm with
      | none =>
        rw [hfm] at hok
        simp at hok
      | some fm =>
        rw [hfm] at hok
        simp only [] at hok
        cases htok : env.token with
        | none =>
          rw [htok] at hok
          simp at hok
        | some tok =>
          rw [htok] at hok
          simp only [] at hok
          by_cases hcsv : env.csv_file.take 4 ≠ "MPRN"
          · rw [if_pos hcsv] at hok
            simp at hok
          · rw [if_neg hcsv] at hok
            rw [foldl_rowStep] at hok
            simp only [Except.ok.injEq] at hok
            rw [← hok]
            simp

lemma get_usage_data_no_cache (mprn email password : String) (env : Env)
    (hcache : env.debugUseCache = false) :
    get_usage_data mprn email password env = fetchFresh mprn email password env := by
  unfold get_usage_data
  rw [hcache]
  simp

/-- C8: on every successful non-debug-cache call, the returned `total_usage`
equals the sum of the `usage` fields of the returned readings, and the
readings are exactly one entry per CSV row whose Read Value parses (a row
whose Read Value fails to parse contributes to neither). -/
theorem total_usage_equals_readings_sum (mprn email password : String) (env : Env)
    (res : UsageResult) (hcache : env.debugUseCache = false)
    (hok : (get_usage_data mprn email password env).2 = Except.ok res) :
    res.total_usage = (res.readings.map Reading.usage).sum
    ∧ res.readings = env.csv_rows.filterMap rowToReading := by
  rw [get_usage_data_no_cache mprn email password env hcache] at hok
  have h := fetchFresh_ok_result mprn email password env res hok
  rw [h]
  refine ⟨?_, rfl⟩
  rw [map_usage_filterMap]

/-- C8 witness: on `envOK` the call succeeds; the unparseable second row is
dropped and the total is the sum of the single parsed reading. -/
theorem total_usage_equals_readings_sum_witness :
    ((0 : ℚ) + 1
        = (([{ date := "01-01-2024 10:30", usage := 1, rtype := "Actual" }] : List Reading).map
            Reading.usage).sum)
    ∧ ([{ date := "01-01-2024 10:30", usage := 1, rtype := "Actual" }] : List Reading)
        = envOK.csv_rows.filterMap rowToReading :=
  total_usage_equals_readings_sum "MPRN1" "e" "pw" envOK
    { total_usage := 0 + 1,
      readings := [{ date := "01-01-2024 10:30", usage := 1, rtype := "Actual" }],
      last_updated := envOK.nowIso }
    rfl rfl

/-- C4: with the debug cache off, whenever every extraction succeeds and the
final body is a CSV, `get_usage_data` issues exactly the 8 requests in order
(initial page load, login POST, login confirm, authentication completion,
portal, consumption page, download token, data download), with the extracted
tokens threaded between them, and returns the CSV-derived readings (one
entry per parseable row, carrying date, usage and type) with their total. -/
theorem eight_step_exchange (mprn email password : String) (env : Env)
    (st : Settings) (fm : AuthForm) (tok : String)
    (hcache : env.debugUseCache = false)
    (hst : env.settings = some st) (hr3 : env.r3_text.take 21 = "<!DOCTYPE html PUBLIC")
    (hfm : env.authForm = some fm) (htok : env.token = some tok)
    (hcsv : env.csv_file.take 4 = "MPRN") :
    get_usage_data mprn email password env
      = ([req1_initial, req2_login st email password env.cookies1, req3_confirm st env.cookies2,
          req4_complete fm, req5_portal env.cookies4,
          req6_consumption env.cookies4 (jarGet env.cookies5 ".AspNetCore.Cookies"),
          req7_token env.cookies4, req8_download tok mprn],
         Except.ok { total_usage := (env.csv_rows.filterMap CsvRow.readValue).sum,
                     readings := env.csv_rows.filterMap rowToReading,
                     last_updated := env.nowIso }) := by
  rw [get_usage_data_no_cache mprn email password env hcache]
  exact fetchFresh_success mprn email password env st fm tok hst hr3 hfm htok hcsv

/-- C4 witness: the concrete environment `envOK` runs all 8 steps and
returns the parsed readings. -/
theorem eight_step_exchange_witness :
    get_usage_data "MPRN1" "e" "pw" envOK
      = ([req1_initial,
          req2_login { csrf := "CSRF0", transId := "TX0" } "e" "pw" envOK.cookies1,
          req3_confirm { csrf := "CSRF0", transId := "TX0" } envOK.cookies2,
          req4_complete { action := "https://login.esbnetworks.ie/auto", state := "S", client_info := "CI", code := "CD" },
          req5_portal envOK.cookies4,
          req6_consumption envOK.cookies4 (jarGet envOK.cookies5 ".AspNetCore.Cookies"),
          req7_token envOK.cookies4, req8_download "TOK" "MPRN1"],
         Except.ok { total_usage := (envOK.csv_rows.filterMap CsvRow.readValue).sum,
                     readings := envOK.csv_rows.filterMap rowToReading,
                     last_updated := envOK.nowIso }) :=
  eight_step_exchange "MPRN1" "e" "pw" envOK
    { csrf := "CSRF0", transId := "TX0" }
    { action := "https://login.esbnetworks.ie/auto", state := "S", client_info := "CI", code := "CD" }
    "TOK" rfl rfl rfl rfl rfl rfl

/-- C7: the anti-forgery tokens extracted from the SETTINGS JSON of the
initial page response are sent on the login POST (the CSRF token as the
`x-csrf-token` header, the transaction id in the `tx` query parameter of the
URL) together with the `x-ms-cpim-csrf` / `x-ms-cpim-trans` cookies captured
from the initial response, and the same token and transaction id are reused
on the confirm request with the cookies captured after the login POST. -/
theorem csrf_token_propagation (mprn email password : String) (env : Env)
    (st : Settings) (hcache : env.debugUseCache = false)
    (hst : env.settings = some st) :
    ((get_usage_data mprn email password env).1)[1]?
      = some { method := "POST"
               url := "https://login.esbnetworks.ie/esbntwkscustportalprdb2c01.onmicrosoft.com/B2C_1A_signup_signin/SelfAsserted?tx="
                 ++ st.transId ++ "&p=B2C_1A_signup_signin"
               data := [("signInName", email), ("password", password), ("request_type", "RESPONSE")]
               headers := [("x-csrf-token", st.csrf), ("User-Agent", userAgent),
                 ("Accept", "application/json, text/javascript, */*; q=0.01"),
                 ("Content-Type", "application/x-www-form-urlencoded; charset=UTF-8"),
                 ("X-Requested-With", "XMLHttpRequest"),
                 ("Origin", "https://login.esbnetworks.ie")]
               cookies := [("x-ms-cpim-csrf", jarGet env.cookies1 "x-ms-cpim-csrf"),
                 ("x-ms-cpim-trans", jarGet env.cookies1 "x-ms-cpim-trans")]
               allowRedirects := false }
    ∧ ((get_usage_data mprn email password env).1)[2]?
      = some { method := "GET"
               url := "https://login.esbnetworks.ie/esbntwkscustportalprdb2c01.onmicrosoft.com/B2C_1A_signup_signin/api/CombinedSigninAndSignup/confirmed"
               params := [("rememberMe", "False"), ("csrf_token", st.csrf),
                 ("tx", st.transId), ("p", "B2C_1A_signup_signin")]
               headers := [("User-Agent", userAgent)]
               cookies := [("x-ms-cpim-csrf", jarGet env.cookies2 "x-ms-cpim-csrf"),
                 ("x-ms-cpim-trans", jarGet env.cookies2 "x-ms-cpim-trans")] } := by
  rw [get_usage_data_no_cache mprn email password env hcache]
  unfold fetchFresh
  simp only [hst]
  by_cases h3 : env.r3_text.take 21 ≠ "<!DOCTYPE html PUBLIC"
  · rw [if_pos h3]
    exact ⟨rfl, rfl⟩
  · rw [if_neg h3]
    cases hfm : env.authForm with
    | none => exact ⟨rfl, rfl⟩
    | some fm =>
      simp only []
      cases htok : env.token with
      | none => exact ⟨rfl, rfl⟩
      | some tok =>
        simp only []
        by_cases h8 : env.csv_file.take 4 ≠ "MPRN"
        · rw [if_pos h8]
          exact ⟨rfl, rfl⟩
        · rw [if_neg h8]
          exact ⟨rfl, rfl⟩

/-- C7 witness: the tokens `CSRF0` / `TX0` extracted on `envOK` are carried
by the second and third requests, with the jars captured after requests 1
and 2. -/
theorem csrf_token_propagation_witness :
    ((get_usage_data "MPRN1" "e" "pw" envOK).1)[1]?
      = some { method := "POST"
               url := "https://login.esbnetworks.ie/esbntwkscustportalprdb2c01.onmicrosoft.com/B2C_1A_signup_signin/SelfAsserted?tx=TX0&p=B2C_1A_signup_signin"
               data := [("signInName", "e"), ("password", "pw"), ("request_type", "RESPONSE")]
               headers := [("x-csrf-token", "CSRF0"), ("User-Agent", userAgent),
                 ("Accept", "application/json, text/javascript, */*; q=0.01"),
                 ("Content-Type", "application/x-www-form-urlencoded; charset=UTF-8"),
                 ("X-Requested-With", "XMLHttpRequest"),
                 ("Origin", "https://login.esbnetworks.ie")]
               cookies := [("x-ms-cpim-csrf", some "c1"), ("x-ms-cpim-trans", some "t1")]
               allowRedirects := false }
    ∧ ((get_usage_data "MPRN1" "e" "pw" envOK).1)[2]?
      = some { method := "GET"
               url := "https://login.esbnetworks.ie/esbntwkscustportalprdb2c01.onmicrosoft.com/B2C_1A_signup_signin/api/CombinedSigninAndSignup/confirmed"
               params := [("rememberMe", "False"), ("csrf_token", "CSRF0"),
                 ("tx", "TX0"), ("p", "B2C_1A_signup_signin")]
               headers := [("User-Agent", userAgent)]
               cookies := [("x-ms-cpim-csrf", some "c2"), ("x-ms-cpim-trans", some "t2")] } :=
  csrf_token_propagation "MPRN1" "e" "pw" envOK { csrf := "CSRF0", transId := "TX0" } rfl rfl

/-- C10: once the first 7 steps have succeeded, if the decoded download body
does not begin with `MPRN` the call fails with `Invalid CSV format received`
and returns no readings; if it does begin with `MPRN`, no such error is
raised and the rows are parsed into the result. -/
theorem csv_format_check (mprn email password : String) (env : Env)
    (st : Settings) (fm : AuthForm) (tok : String)
    (hcache : env.debugUseCache = false)
    (hst : env.settings = some st) (hr3 : env.r3_text.take 21 = "<!DOCTYPE html PUBLIC")
    (hfm : env.authForm = some fm) (htok : env.token = some tok) :
    (env.csv_file.take 4 ≠ "MPRN" →
      (get_usage_data mprn email password env).2 = Except.error "Invalid CSV format received")
    ∧ (env.csv_file.take 4 = "MPRN" →
      (get_usage_data mprn email password env).2
        = Except.ok { total_usage := (env.csv_rows.filterMap CsvRow.readValue).sum,
                      readings := env.csv_rows.filterMap rowToReading,
                      last_updated := env.nowIso }) := by
  constructor
  · intro hbad
    rw [get_usage_data_no_cache mprn email password env hcache]
    unfold fetchFresh
    simp only [hst, hfm, htok]
    rw [if_neg (by rw [hr3]; simp)]
    rw [if_pos hbad]
  · intro hgood
    rw [get_usage_data_no_cache mprn email password env hcache,
      fetchFresh_success mprn email password env st fm tok hst hr3 hfm htok hgood]

/-- C10 witness: on `envBadCsv` (body not starting with `MPRN`) the call
errors with `Invalid CSV format received`; on `envOK` it succeeds. -/
theorem csv_format_check_witness :
    (get_usage_data "MPRN1" "e" "pw" envBadCsv).2 = Except.error "Invalid CSV format received"
    ∧ (get_usage_data "MPRN1" "e" "pw" envOK).2
      = Except.ok { total_usage := (envOK.csv_rows.filterMap CsvRow.readValue).sum,
                    readings := envOK.csv_rows.filterMap rowToReading,
                    last_updated := envOK.nowIso } :=
  ⟨(csv_format_check "MPRN1" "e" "pw" envBadCsv { csrf := "CSRF0", transId := "TX0" }
      { action := "https://login.esbnetworks.ie/auto", state := "S", client_info := "CI", code := "CD" }
      "TOK" rfl rfl rfl rfl rfl).1 (by decide),
   (csv_format_check "MPRN1" "e" "pw" envOK { csrf := "CSRF0", transId := "TX0" }
      { action := "https://login.esbnetworks.ie/auto", state := "S", client_info := "CI", code := "CD" }
      "TOK" rfl rfl rfl rfl rfl).2 rfl⟩
